import Mathlib

/-!
Verification of the SpeakBright speech-therapy backend
(`backend/services/*.py`, `backend/models/schemas.py`).

Numeric values are embedded as exact rationals (`ℚ`).  Python's
`round(x, 2)` is embedded as rounding `100*x` to the nearest integer;
Python uses banker's rounding at exact half-ties, but no statement below
depends on the behaviour at a tie.  Calls to `np.random.uniform(a, b)`
are embedded by inverse-CDF sampling: a parameter `u ∈ [0, 1]` gives the
draw `a + u * (b - a)`.  `np.clip` is `min (max x lo) hi`.
-/

/-- Python `round(q, 2)`: round to the nearest multiple of `1/100`. -/
def round2 (q : ℚ) : ℚ := (round (q * 100) : ℚ) / 100

/-- `np.clip q lo hi`. -/
def clip (q lo hi : ℚ) : ℚ := min (max q lo) hi

/-- Python `int(q)`: truncation toward zero. -/
def pyInt (q : ℚ) : ℤ := if 0 ≤ q then ⌊q⌋ else -⌊-q⌋

/-- `np.mean` of a list of rationals. -/
def listMean (l : List ℚ) : ℚ := l.sum / l.length

/-- A rational is expressible with two decimal places. -/
def IsRound2 (q : ℚ) : Prop := ∃ k : ℤ, q = (k : ℚ) / 100

/-- Python `str.lower()` on the ASCII strings used by this codebase. -/
def pyLower (s : String) : String := String.mk (s.data.map Char.toLower)

/-! ## pronunciation_scoring.py -/

/-- `CMU_TO_SIMPLE` (pronunciation_scoring.py lines 23-59): CMU ARPAbet
symbol to simplified representation. -/
def CMU_TO_SIMPLE : List (String × String) :=
  [("B", "b"), ("P", "p"), ("M", "m"),
   ("T", "t"), ("D", "d"), ("N", "n"),
   ("K", "k"), ("G", "g"), ("NG", "ng"),
   ("F", "f"), ("V", "v"),
   ("TH", "th"), ("DH", "th"),
   ("S", "s"), ("Z", "z"),
   ("SH", "sh"), ("ZH", "zh"),
   ("HH", "h"),
   ("W", "w"), ("Y", "y"),
   ("L", "l"), ("R", "r"),
   ("CH", "ch"), ("JH", "j"),
   ("AA", "ah"), ("AE", "ae"), ("AH", "uh"), ("AO", "aw"), ("AW", "ow"),
   ("AY", "ai"), ("EH", "eh"), ("ER", "er"), ("EY", "ey"),
   ("IH", "ih"), ("IY", "ee"), ("OW", "oh"), ("OY", "oy"),
   ("UH", "uh"), ("UW", "oo"),
   ("AA0", "ah"), ("AA1", "ah"), ("AA2", "ah"),
   ("AE0", "ae"), ("AE1", "ae"), ("AE2", "ae"),
   ("AH0", "uh"), ("AH1", "uh"), ("AH2", "uh"),
   ("AO0", "aw"), ("AO1", "aw"), ("AO2", "aw"),
   ("AW0", "ow"), ("AW1", "ow"), ("AW2", "ow"),
   ("AY0", "ai"), ("AY1", "ai"), ("AY2", "ai"),
   ("EH0", "eh"), ("EH1", "eh"), ("EH2", "eh"),
   ("ER0", "er"), ("ER1", "er"), ("ER2", "er"),
   ("EY0", "ey"), ("EY1", "ey"), ("EY2", "ey"),
   ("IH0", "ih"), ("IH1", "ih"), ("IH2", "ih"),
   ("IY0", "ee"), ("IY1", "ee"), ("IY2", "ee"),
   ("OW0", "oh"), ("OW1", "oh"), ("OW2", "oh"),
   ("OY0", "oy"), ("OY1", "oy"), ("OY2", "oy"),
   ("UH0", "uh"), ("UH1", "uh"), ("UH2", "uh"),
   ("UW0", "oo"), ("UW1", "oo"), ("UW2", "oo")]

/-- `CMU_TO_SIMPLE.get(p, p.lower())`. -/
def cmuToSimple (p : String) : String := (CMU_TO_SIMPLE.lookup p).getD (pyLower p)

/-- `WORD_PHONEMES` (pronunciation_scoring.py lines 62-85): word to CMU
phoneme sequence. -/
def WORD_PHONEMES : List (String × List String) :=
  [("butterfly", ["B", "AH1", "T", "ER0", "F", "L", "AY2"]),
   ("rainbow", ["R", "EY1", "N", "B", "OW2"]),
   ("hi", ["HH", "AY1"]),
   ("me", ["M", "IY1"]),
   ("sun", ["S", "AH1", "N"]),
   ("jumping", ["JH", "AH1", "M", "P", "IH0", "NG"]),
   ("happy", ["HH", "AE1", "P", "IY0"]),
   ("red", ["R", "EH1", "D"]),
   ("run", ["R", "AH1", "N"]),
   ("rain", ["R", "EY1", "N"]),
   ("see", ["S", "IY1"]),
   ("sit", ["S", "IH1", "T"]),
   ("sea", ["S", "IY1"]),
   ("think", ["TH", "IH1", "NG", "K"]),
   ("thank", ["TH", "AE1", "NG", "K"]),
   ("three", ["TH", "R", "IY1"]),
   ("like", ["L", "AY1", "K"]),
   ("let", ["L", "EH1", "T"]),
   ("look", ["L", "UH1", "K"]),
   ("fun", ["F", "AH1", "N"]),
   ("find", ["F", "AY1", "N", "D"]),
   ("fall", ["F", "AO1", "L"])]

/-- `DIALECT_VARIATIONS` (pronunciation_scoring.py lines 88-93). -/
def DIALECT_VARIATIONS : List (String × List String) :=
  [("TH", ["D", "T"]), ("DH", ["D", "T"]), ("R", ["W", "AH0"]), ("NG", ["N"])]

/-- The vowel list of the vowel-confusion branch
(pronunciation_scoring.py lines 160-161). -/
def sphinxVowels : List String := ["AA", "AE", "AH", "EH", "IH", "IY", "UH"]

/-- The similar-consonant pair list (pronunciation_scoring.py lines 165-169). -/
def similarConsonantPairs : List (String × String) :=
  [("P", "B"), ("T", "D"), ("K", "G"),
   ("F", "V"), ("S", "Z"), ("SH", "ZH"),
   ("TH", "F"), ("TH", "S")]

/-- The base-confidence selection of `calculate_phoneme_confidence`
(pronunciation_scoring.py lines 148-173): an elif chain keyed on the
(expected, detected) pair. -/
def gopBaseConfidence (expected detected : String) : ℚ :=
  if expected = detected then 0.95
  else match DIALECT_VARIATIONS.lookup expected with
  | some variants => if detected ∈ variants then 0.92 else 0.65
  | none =>
    if expected ∈ sphinxVowels ∧ detected ∈ sphinxVowels then 0.75
    else if (expected, detected) ∈ similarConsonantPairs then 0.70
    else 0.60

/-- Acoustic-likelihood normalisation (pronunciation_scoring.py line 178):
`min(1.0, max(0.0, (acoustic_score + 5000) / 5000))`. -/
def acousticFactor (a : ℚ) : ℚ := min 1 (max 0 ((a + 5000) / 5000))

/-- `calculate_phoneme_confidence` (pronunciation_scoring.py lines 138-185).
`acoustic` is the optional acoustic score; Python's `if acoustic_score:`
is falsy both for `None` and for `0.0`.  `v` is the jitter drawn by
`np.random.uniform(-0.03, 0.03)`. -/
def calculate_phoneme_confidence (expected detected : String)
    (acoustic : Option ℚ) (v : ℚ) : ℚ :=
  let base := gopBaseConfidence expected detected
  let base := match acoustic with
    | some a => if a = 0 then base else (base + acousticFactor a) / 2
    | none => base
  round2 (clip (base + v) 0.5 1.0)

/-- `difficult_sounds` (pronunciation_scoring.py line 288). -/
def difficult_sounds : List String := ["R", "TH", "L", "S"]

/-- The base-confidence draw of `enhanced_mock_scoring`
(pronunciation_scoring.py lines 291-295): `np.random.uniform(0.60, 0.80)`
for difficult sounds, `np.random.uniform(0.75, 0.92)` otherwise, with the
draw parametrised by `u ∈ [0, 1]`. -/
def mockBaseDraw (ph : String) (u : ℚ) : ℚ :=
  if ph ∈ difficult_sounds then 0.60 + u * (0.80 - 0.60)
  else 0.75 + u * (0.92 - 0.75)

/-- The position factor of `enhanced_mock_scoring`
(pronunciation_scoring.py line 301):
`1.0 - 0.15 * abs(i - n/2) / n` for position `i` of `n`. -/
def mockPositionFactor (i n : ℕ) : ℚ :=
  1 - 0.15 * |((i : ℚ) - (n : ℚ) / 2)| / (n : ℚ)

/-- One confidence of `enhanced_mock_scoring`
(pronunciation_scoring.py lines 290-305): base draw, quality adjustment
`0.5 + 0.5 * quality_factor`, position factor, clip to `[0.50, 0.95]`,
round to two decimals. -/
def mockConfidence (ph : String) (u q : ℚ) (i n : ℕ) : ℚ :=
  round2 (clip (mockBaseDraw ph u * (0.5 + 0.5 * q) * mockPositionFactor i n) 0.50 0.95)

/-- A phoneme score record as produced by the scoring layer:
`{"phoneme", "expected", "confidence", "detected"}`. -/
structure PhonemeScoreOut where
  phoneme : String
  expected : String
  confidence : ℚ
  detected : String
deriving DecidableEq

/-- `enhanced_mock_scoring` (pronunciation_scoring.py lines 259-320).
`u i` is the uniform draw for position `i`; `q` is `quality_factor`
(computed from audio features or the default `0.75`). -/
def enhanced_mock_scoring (word : String) (u : ℕ → ℚ) (q : ℚ) :
    List PhonemeScoreOut :=
  let expected := (WORD_PHONEMES.lookup (pyLower word)).getD ["UNK"]
  let n := expected.length
  expected.enum.map fun iph =>
    { phoneme := cmuToSimple iph.2
      expected := cmuToSimple iph.2
      confidence := mockConfidence iph.2 (u iph.1) q iph.1 n
      detected := iph.2 }

/-- A PocketSphinx segment: `segment.word` and `segment.prob`. -/
structure SphinxSeg where
  word : String
  prob : ℚ
deriving DecidableEq

/-- `score_with_pocketsphinx` (pronunciation_scoring.py lines 188-256),
with the decoder hypothesis and segment list as parameters.  Returns
`none` when no speech is detected (`hyp = none`); the unknown-word
lookup default here is `[]` (line 218).  `v i` is the jitter draw of the
confidence computation at position `i`. -/
def score_with_pocketsphinx (hyp : Option String) (segs : List SphinxSeg)
    (word : String) (v : ℕ → ℚ) : Option (List PhonemeScoreOut) :=
  match hyp with
  | none => none
  | some _ =>
    let expected := (WORD_PHONEMES.lookup (pyLower word)).getD []
    some (expected.enum.map fun iph =>
      match segs.get? iph.1 with
      | some seg =>
        { phoneme := cmuToSimple iph.2
          expected := cmuToSimple iph.2
          confidence := calculate_phoneme_confidence iph.2 seg.word (some seg.prob) (v iph.1)
          detected := seg.word }
      | none =>
        { phoneme := cmuToSimple iph.2
          expected := cmuToSimple iph.2
          confidence := 0.55
          detected := iph.2 })

/-- `score_pronunciation` (pronunciation_scoring.py lines 334-353): try
PocketSphinx first (when available), fall back to enhanced mock scoring
when it yields `None` or an empty list (Python truthiness of the
result). -/
def score_pronunciation (sphinxAvailable : Bool) (hyp : Option String)
    (segs : List SphinxSeg) (word : String) (v u : ℕ → ℚ) (q : ℚ) :
    List PhonemeScoreOut :=
  match (if sphinxAvailable then score_with_pocketsphinx hyp segs word v else none) with
  | some (s :: rest) => s :: rest
  | _ => enhanced_mock_scoring word u q

/-! ## ethics.py -/

/-- `CONFIDENCE_FLOOR` (ethics.py line 8). -/
def CONFIDENCE_FLOOR : ℚ := 0.50

/-- `HIGH_CONFIDENCE_THRESHOLD` (ethics.py line 9). -/
def HIGH_CONFIDENCE_THRESHOLD : ℚ := 0.75

/-- `should_give_corrective_feedback` (ethics.py lines 35-42):
`confidence >= HIGH_CONFIDENCE_THRESHOLD`. -/
def should_give_corrective_feedback (confidence : ℚ) : Bool :=
  decide (HIGH_CONFIDENCE_THRESHOLD ≤ confidence)

/-- `get_encouragement_level` (ethics.py lines 45-62). -/
def get_encouragement_level (confidence : ℚ) : String :=
  if 0.85 ≤ confidence then "excellent"
  else if 0.75 ≤ confidence then "good"
  else if 0.60 ≤ confidence then "try_again"
  else "neutral"

/-- The `dialect_variations` table of `is_dialect_variation`
(ethics.py lines 76-80). -/
def ETHICS_DIALECT_VARIATIONS : List (String × List String) :=
  [("th", ["d", "t"]), ("r", ["w", "ah"]), ("ing", ["in"])]

/-- `is_dialect_variation` (ethics.py lines 65-86). -/
def is_dialect_variation (phoneme detected : String) : Bool :=
  match ETHICS_DIALECT_VARIATIONS.lookup (pyLower phoneme) with
  | some variants => variants.contains (pyLower detected)
  | none => false

/-- Characters of a `List Char` lowercased (`value.lower()` at the
character-list level). -/
def lowerChars (l : List Char) : List Char := l.map Char.toLower

/-- Python substring test `needle in hay` on character lists. -/
def occursIn (needle : List Char) : List Char → Bool
  | [] => needle.isEmpty
  | c :: rest => needle.isPrefixOf (c :: rest) || occursIn needle rest

/-- Worker for `replaceCI`, structurally recursive on a fuel argument
(one unit of fuel per consumed character; `fuel = hay.length` always
suffices and is what `replaceCI` passes). -/
def replaceCIAux (needle repl : List Char) : ℕ → List Char → List Char
  | 0, l => l
  | _, [] => []
  | fuel + 1, c :: rest =>
    if needle ≠ [] ∧ lowerChars (List.take needle.length (c :: rest)) = needle then
      repl ++ replaceCIAux needle repl fuel (List.drop (needle.length - 1) rest)
    else c :: replaceCIAux needle repl fuel rest

/-- `re.compile(re.escape(needle), re.IGNORECASE).sub(repl, hay)`:
replace every non-overlapping, left-to-right, case-insensitive occurrence
of `needle` (a lowercase literal) in `hay` by `repl`. -/
def replaceCI (needle repl hay : List Char) : List Char :=
  replaceCIAux needle repl hay.length hay

/-- `banned_replacements` of `ensure_child_safety`
(ethics.py lines 101-112), in Python dict insertion order. -/
def BANNED_REPLACEMENTS : List (String × String) :=
  [("wrong", "let's practice"), ("bad", "needs practice"), ("incorrect", "let's try"),
   ("failed", "learning"), ("poor", "developing"), ("terrible", "growing"),
   ("error", "learning opportunity"), ("mistake", "practice opportunity"),
   ("can't", "learning to"), ("unable", "working on")]

/-- The banned-word loop of `ensure_child_safety` applied to one string
value (ethics.py lines 115-124).  Note the loop's semantics, kept
faithfully: `value_lower` is computed once from the original `value`,
and each matching banned word's substitution is applied to the original
`value` (not to the already-substituted result), the assignment
overwriting the previous one. -/
def safeString (s : String) : String :=
  BANNED_REPLACEMENTS.foldl (fun acc br =>
    if occursIn br.1.data (lowerChars s.data) then String.mk (replaceCI br.1.data br.2.data s.data)
    else acc) s

/-- A Python value inside a feedback dictionary: a string, a number, a
boolean, a nested dict, or a list. -/
inductive FVal where
  | str : String → FVal
  | num : ℚ → FVal
  | bool : Bool → FVal
  | dict : List (String × FVal) → FVal
  | list : List FVal → FVal

mutual

/-- `ensure_child_safety` (ethics.py lines 89-135) over the entries of a
feedback dict: string values pass through the banned-word loop, dict
values recurse, list values have only their dict items recursed
(non-dict list items — strings included — pass through unchanged),
every other value is untouched. -/
def ensure_child_safety : List (String × FVal) → List (String × FVal)
  | [] => []
  | (k, v) :: rest => (k, ecsValue v) :: ensure_child_safety rest

/-- One value of the `ensure_child_safety` loop (ethics.py lines 115-133). -/
def ecsValue : FVal → FVal
  | .str s => .str (safeString s)
  | .dict d => .dict (ensure_child_safety d)
  | .list items => .list (ecsItems items)
  | v => v

/-- The list comprehension of `ensure_child_safety` (ethics.py
lines 130-133): only dict items are filtered, other items kept as-is. -/
def ecsItems : List FVal → List FVal
  | [] => []
  | .dict d :: rest => .dict (ensure_child_safety d) :: ecsItems rest
  | v :: rest => v :: ecsItems rest

end

/-! ## feedback_generator.py -/

/-- `GENERAL_ENCOURAGEMENT` (feedback_generator.py lines 14-19). -/
def GENERAL_ENCOURAGEMENT : List String :=
  ["Nice try! I love how hard you're working! 🌟",
   "Great effort! Let's keep going together! 💪",
   "You're learning—that's so cool! 🎉",
   "Every try helps your voice get stronger! 🦸"]

/-- `ADDITIONAL_ENCOURAGEMENT` (feedback_generator.py lines 22-27). -/
def ADDITIONAL_ENCOURAGEMENT : List String :=
  ["Wow, you're doing awesome! Keep it up! ⭐",
   "I can see you trying really hard! That's amazing! 🌈",
   "You're being so brave! I'm proud of you! 🌟",
   "Keep going! You're learning something new! 🚀"]

/-- `PRACTICE_ENCOURAGEMENT["specific_sound"]` (feedback_generator.py
lines 35-43), the `"default"` key split out below. -/
def PRACTICE_SPECIFIC_SOUND : List (String × String) :=
  [("r", "Almost there! Let's make the 'r' sound a little stronger. 🦁"),
   ("s", "Nice job! We can help the 's' sound sound even clearer. 🐍"),
   ("th", "That was a great start! Let's practice the 'th' sound together. 👅"),
   ("l", "Great job! Let's make the 'l' sound a bit clearer. 🎵"),
   ("f", "Nice try! Let's work on the 'f' sound together. 🌬️"),
   ("v", "Good effort! Let's practice the 'v' sound. 🐝")]

/-- `PRACTICE_ENCOURAGEMENT["specific_sound"]["default"]`
(feedback_generator.py line 42). -/
def PRACTICE_SPECIFIC_DEFAULT : String :=
  "Let's practice that sound together! You've got this! 💫"

/-- One entry of `ARTICULATION_TIPS` (feedback_generator.py lines 47-105). -/
structure TipEntry where
  visual_cue : String
  tip : String
  alternative : String
  mouth_position : String
  explanation : String
deriving DecidableEq

/-- `ARTICULATION_TIPS` (feedback_generator.py lines 47-105). -/
def ARTICULATION_TIPS : List (String × TipEntry) :=
  [("r", { visual_cue := "🛝", tip := "Try curling your tongue back like a little slide! 🛝",
           alternative := "Let your tongue hide a bit inside your mouth.",
           mouth_position := "tongue_back",
           explanation := "The R sound needs your tongue to curl back" }),
   ("s", { visual_cue := "🐍", tip := "Smile a little and push the air forward like a snake! 🐍",
           alternative := "Let the air flow straight out.",
           mouth_position := "teeth_together",
           explanation := "The S sound is made by pushing air through your teeth" }),
   ("th", { visual_cue := "👅", tip := "Gently peek your tongue between your teeth! 👅",
            alternative := "Let your tongue say hello!",
            mouth_position := "tongue_between_teeth",
            explanation := "The TH sound needs your tongue to peek out" }),
   ("l", { visual_cue := "🎵", tip := "Touch the top of your mouth with your tongue tip! 🎵",
           alternative := "Your tongue wants to touch the ceiling!",
           mouth_position := "tongue_to_roof",
           explanation := "The L sound is made by touching the roof of your mouth" }),
   ("f", { visual_cue := "🌬️", tip := "Gently bite your bottom lip and blow air! 🌬️",
           alternative := "Your top teeth touch your bottom lip softly.",
           mouth_position := "teeth_on_lip",
           explanation := "The F sound is made by blowing air over your lip" }),
   ("v", { visual_cue := "🐝", tip := "Just like 'f' but make your voice buzz like a bee! 🐝",
           alternative := "Your voice box makes a humming sound!",
           mouth_position := "teeth_on_lip",
           explanation := "The V sound is like F, but your voice buzzes" }),
   ("b", { visual_cue := "💥", tip := "Put your lips together and pop them open!",
           alternative := "Make a little explosion with your lips!",
           mouth_position := "lips_together",
           explanation := "The B sound starts with closed lips" }),
   ("p", { visual_cue := "🎈", tip := "Close your lips and blow out air!",
           alternative := "Pop your lips like a bubble!",
           mouth_position := "lips_together",
           explanation := "The P sound is a quiet lip pop" })]

/-- Python truthiness of an optional string (`if phoneme:`): false for
`None` and for the empty string. -/
def pyTruthyStr : Option String → Bool
  | some s => decide (s ≠ "")
  | none => false

/-- `get_encouragement_message` (feedback_generator.py lines 108-144).
`choice` indexes the `random.choice` pools. -/
def get_encouragement_message (confidence : ℚ) (phoneme : Option String)
    (choice : ℕ) : String :=
  let level := get_encouragement_level confidence
  if level = "excellent" then
    if pyTruthyStr phoneme then "Fantastic! Your '" ++ phoneme.getD "" ++ "' sound is so clear! 🌟"
    else ["Amazing work! You're a superstar! ⭐",
          "Perfect! You nailed it! 🎯",
          "Wow! That was excellent! 🎉"].getD choice ""
  else if level = "good" then
    if pyTruthyStr phoneme then "Great job on the '" ++ phoneme.getD "" ++ "' sound! You're doing awesome! 🎉"
    else ["Really good work! Keep it up! 💪",
          "You're doing so well! Proud of you! 🌟",
          "Nice job! You're making progress! ⭐"].getD choice ""
  else if level = "try_again" ∧ pyTruthyStr phoneme then
    (PRACTICE_SPECIFIC_SOUND.lookup (phoneme.getD "")).getD PRACTICE_SPECIFIC_DEFAULT
  else
    (GENERAL_ENCOURAGEMENT ++ ADDITIONAL_ENCOURAGEMENT).getD choice ""

/-- One feedback dict of `generate_feedback` (feedback_generator.py
lines 179-193).  `explanation` is present only in the high-confidence,
known-phoneme case (lines 192-193). -/
structure FeedbackItem where
  phoneme : String
  expected : String
  confidence : ℚ
  tip : String
  visual_cue : String
  mouth_position : String
  needs_practice : Bool
  encouragement : String
  show_specific_guidance : Bool
  explanation : Option String
deriving DecidableEq

/-- The per-phoneme body of the `generate_feedback` loop
(feedback_generator.py lines 159-195), before the final safety pass.
`choiceTip` indexes the `random.choice` inside the low-confidence tip,
`choiceEnc` the one inside the encouragement. -/
def mkFeedbackItem (p : PhonemeScoreOut) (choiceTip choiceEnc : ℕ) : FeedbackItem :=
  let corrective := should_give_corrective_feedback p.confidence
  let tipData := ARTICULATION_TIPS.lookup p.phoneme
  { phoneme := p.phoneme
    expected := p.expected
    confidence := round2 p.confidence
    tip :=
      if corrective then
        match tipData with
        | some t => t.tip
        | none => "Let's practice this sound together!"
      else get_encouragement_message p.confidence none choiceTip
    visual_cue :=
      if corrective then
        match tipData with
        | some t => t.visual_cue
        | none => "🎯"
      else "✨"
    mouth_position :=
      if corrective then
        match tipData with
        | some t => t.mouth_position
        | none => "neutral"
      else "neutral"
    needs_practice := decide (p.confidence < 0.75)
    encouragement := get_encouragement_message p.confidence (some p.phoneme) choiceEnc
    show_specific_guidance := corrective
    explanation :=
      if corrective then
        match tipData with
        | some t => some t.explanation
        | none => none
      else none }

/-- `ensure_child_safety` applied to one feedback dict
(feedback_generator.py line 198): every string value passes through the
banned-word loop, the boolean flags and the numeric confidence are
untouched. -/
def safeFeedbackItem (f : FeedbackItem) : FeedbackItem :=
  { f with
    phoneme := safeString f.phoneme
    expected := safeString f.expected
    tip := safeString f.tip
    visual_cue := safeString f.visual_cue
    mouth_position := safeString f.mouth_position
    encouragement := safeString f.encouragement
    explanation := f.explanation.map safeString }

/-- The loop of `generate_feedback` with a position counter for the
random choices. -/
def generate_feedback_go (chTip chEnc : ℕ → ℕ) : ℕ → List PhonemeScoreOut → List FeedbackItem
  | _, [] => []
  | i, p :: rest =>
    safeFeedbackItem (mkFeedbackItem p (chTip i) (chEnc i)) :: generate_feedback_go chTip chEnc (i + 1) rest

/-- `generate_feedback` (feedback_generator.py lines 147-207): build one
feedback dict per phoneme score, then pass each through
`ensure_child_safety`.  `chTip i` and `chEnc i` index the random choices
of item `i`. -/
def generate_feedback (scores : List PhonemeScoreOut) (chTip chEnc : ℕ → ℕ) :
    List FeedbackItem :=
  generate_feedback_go chTip chEnc 0 scores

/-! ## speech_analysis.py and models/schemas.py -/

/-- A history record in the shape `calculate_progress` expects of its
`previous_scores` argument: a dict with a `"phoneme_scores"` list
(speech_analysis.py line 65). -/
structure PrevRec where
  phoneme_scores : List PhonemeScoreOut
deriving DecidableEq

/-- The result dict of `calculate_progress` (speech_analysis.py
lines 55-98).  In the first-attempt branch the Python dict carries no
`previous_average` key; that case is embedded with
`previous_average = []`. -/
structure ProgressInfo where
  is_first_attempt : Bool
  improved_phonemes : List String
  needs_more_practice : List String
  previous_average : List (String × ℚ)
deriving DecidableEq

/-- Appending one confidence to `phoneme_history[phoneme]`, creating the
key at the end on first sight (Python dict insertion order,
speech_analysis.py lines 66-69). -/
def addToHistory : List (String × List ℚ) → String → ℚ → List (String × List ℚ)
  | [], ph, c => [(ph, [c])]
  | (q, cs) :: rest, ph, c =>
    if q = ph then (q, cs ++ [c]) :: rest else (q, cs) :: addToHistory rest ph c

/-- `phoneme_history` of `calculate_progress` (speech_analysis.py
lines 63-69). -/
def phonemeHistory (previous : List PrevRec) : List (String × List ℚ) :=
  previous.foldl
    (fun h r => r.phoneme_scores.foldl (fun h p => addToHistory h p.phoneme p.confidence) h)
    []

/-- `phoneme_avg` of `calculate_progress` (speech_analysis.py
lines 72-75): per-phoneme mean of the historical confidences. -/
def phonemeAvg (previous : List PrevRec) : List (String × ℚ) :=
  (phonemeHistory previous).map fun pc => (pc.1, pc.2.sum / (pc.2.length : ℚ))

/-- The `needs_practice` accumulation (`confidence < 0.75`,
speech_analysis.py lines 59 and 90-91). -/
def needsPracticeOf (current : List PhonemeScoreOut) : List String :=
  (current.filter fun p => decide (p.confidence < 0.75)).map (·.phoneme)

/-- `calculate_progress` (speech_analysis.py lines 50-98), on history
records of the dict shape the function's own code expects.  A phoneme is
appended to `improved` when it has a historical average `prev_avg` and
`current_conf > prev_avg + 0.05` (line 87, a strict comparison). -/
def calculate_progress (current : List PhonemeScoreOut) (previous : List PrevRec) :
    ProgressInfo :=
  match previous with
  | [] =>
    { is_first_attempt := true
      improved_phonemes := []
      needs_more_practice := needsPracticeOf current
      previous_average := [] }
  | _ :: _ =>
    let avg := phonemeAvg previous
    { is_first_attempt := false
      improved_phonemes :=
        (current.filter fun p =>
          match avg.lookup p.phoneme with
          | some prevAvg => decide (p.confidence > prevAvg + 0.05)
          | none => false).map (·.phoneme)
      needs_more_practice := needsPracticeOf current
      previous_average := avg }

/-- `ProgressData` (schemas.py lines 162-169), the record `analyze_speech`
stores in `user_progress_db`: only the word, the overall score and the
two abstract phoneme classifications — no per-phoneme confidences.
`session_date` is abstracted to a tick and `session_duration_seconds`
kept optional, as in the model. -/
structure ProgressData where
  session_date : ℕ
  word_practiced : String
  overall_score : ℤ
  phonemes_improved : List String
  phonemes_need_practice : List String
  session_duration_seconds : Option ℤ
deriving DecidableEq

/-- A Python runtime exception relevant here. -/
inductive PyError where
  | attributeError
deriving DecidableEq

/-- The attribute access `prev.get("phoneme_scores", [])`
(speech_analysis.py line 65) evaluated on a stored history record:
`ProgressData` (schemas.py lines 162-169) is a pydantic `BaseModel`,
which declares no `phoneme_scores` field and has no `get` method, so the
access raises `AttributeError`. -/
def ProgressData.getPhonemeScores (_ : ProgressData) :
    Except PyError (List PhonemeScoreOut) :=
  .error .attributeError

/-- `get_previous_scores` (speech_analysis.py lines 38-48) over an
association-list embedding of `user_progress_db`. -/
def get_previous_scores (db : List (String × List ProgressData))
    (user_id word : String) : List ProgressData :=
  match db.lookup user_id with
  | none => []
  | some recs => recs.filter fun p => p.word_practiced == word

/-- The `phoneme_history` loop of `calculate_progress` run on the stored
`ProgressData` records that `get_previous_scores` actually returns: each
iteration performs the failing attribute access. -/
def storedHistory (previous : List ProgressData) :
    Except PyError (List (String × List ℚ)) :=
  previous.foldlM
    (fun h r => do
      let ss ← r.getPhonemeScores
      pure (ss.foldl (fun h p => addToHistory h p.phoneme p.confidence) h))
    []

/-- `calculate_progress` as executed by the pipeline on a returning user
(speech_analysis.py lines 133-135): the `previous_scores` are the stored
`ProgressData` records, and the non-empty branch runs the history loop
over them. -/
def calculate_progress_on_stored (current : List PhonemeScoreOut)
    (previous : List ProgressData) : Except PyError ProgressInfo :=
  match previous with
  | [] =>
    .ok
      { is_first_attempt := true
        improved_phonemes := []
        needs_more_practice := needsPracticeOf current
        previous_average := [] }
  | _ :: _ => do
    let hist ← storedHistory previous
    let avg := hist.map fun pc => (pc.1, pc.2.sum / (pc.2.length : ℚ))
    .ok
      { is_first_attempt := false
        improved_phonemes :=
          (current.filter fun p =>
            match avg.lookup p.phoneme with
            | some prevAvg => decide (p.confidence > prevAvg + 0.05)
            | none => false).map (·.phoneme)
        needs_more_practice := needsPracticeOf current
        previous_average := avg }

/-- The overall score of `analyze_speech` (speech_analysis.py lines 145
and 163): `int(np.mean(confidences) * 100)`. -/
def overall_score_py (confidences : List ℚ) : ℤ :=
  pyInt (listMean confidences * 100)

/-! ## exercise_generator.py -/

/-- One exercise dict of `generate_exercises` (exercise_generator.py
lines 109-173); `phoneme`, `level` and `repetitions` are present only on
articulation entries. -/
structure ExerciseOut where
  type : String
  title : String
  instruction : String
  phoneme : Option String
  level : Option String
  repetitions : Option ℕ
deriving DecidableEq

/-- `ARTICULATION_EXERCISES` (exercise_generator.py lines 7-93):
per phoneme, the (level, exercise, repetitions) progression. -/
def ARTICULATION_EXERCISES : List (String × List (String × String × ℕ)) :=
  [("r", [("isolation", "Say 'rrrrr' like a lion roaring! Hold it for 3 seconds. 🦁", 5),
          ("syllable", "Practice: 'ray, ray, ray' - Say it slowly 3 times!", 3),
          ("word", "Try these words: 'red', 'run', 'rain' - Take your time!", 2)]),
   ("s", [("isolation", "Make a snake sound: 'sssss' - Let the air flow! 🐍", 5),
          ("syllable", "Practice: 'see, see, see' - Smile and say it!", 3),
          ("word", "Try: 'sun', 'sit', 'sea' - One at a time!", 2)]),
   ("th", [("isolation", "Stick your tongue out gently and say 'thhhh'! 👅", 5),
           ("syllable", "Practice: 'tha, tha, tha' - Tongue peeks out!", 3),
           ("word", "Try: 'think', 'thank', 'three' - Go slow!", 2)]),
   ("l", [("isolation", "Touch the roof of your mouth and say 'llll'! 🎵", 5),
          ("syllable", "Practice: 'la, la, la' - Tongue up high!", 3),
          ("word", "Try: 'like', 'let', 'look' - Nice and slow!", 2)]),
   ("f", [("isolation", "Gently bite your lip and blow: 'ffff'! 🌬️", 5),
          ("syllable", "Practice: 'fay, fay, fay' - Feel the air!", 3),
          ("word", "Try: 'fun', 'find', 'fall' - Take your time!", 2)])]

/-- `BREATHING_EXERCISES` (exercise_generator.py lines 96-100). -/
def BREATHING_EXERCISES : List String :=
  ["Take a deep breath in... and blow it out slowly like a candle! 🕯️",
   "Breathe in through your nose, out through your mouth. Nice and easy! 🌬️",
   "Pretend to blow bubbles - take a big breath and blow gently! 🫧"]

/-- `COORDINATION_EXERCISES` (exercise_generator.py lines 103-107). -/
def COORDINATION_EXERCISES : List String :=
  ["Open your mouth wide like a lion, then close it. Do this 3 times! 🦁",
   "Stick your tongue out, then pull it back in. Try it 5 times! 👅",
   "Smile big, then make a fish face. Back and forth 3 times! 🐠"]

/-- Stable insertion of a score into a list ascending by confidence
(the element goes after every existing one with confidence ≤ its own),
matching Python's stable `list.sort(key=confidence)`. -/
def insertByConf (p : PhonemeScoreOut) : List PhonemeScoreOut → List PhonemeScoreOut
  | [] => [p]
  | q :: rest =>
    if q.confidence ≤ p.confidence then q :: insertByConf p rest else p :: q :: rest

/-- `needs_practice.sort(key=lambda x: x["confidence"])`
(exercise_generator.py line 123). -/
def sortByConf (l : List PhonemeScoreOut) : List PhonemeScoreOut :=
  l.foldl (fun acc p => insertByConf p acc) []

/-- `generate_exercises` (exercise_generator.py lines 109-173).
`wChoice` and `cChoice` index the two `random.choice` pools.  When no
phoneme is below 0.75 the built warmup/coordination list is replaced
wholesale by the celebration and challenge entries (lines 159-171). -/
def generate_exercises (scores : List PhonemeScoreOut) (wChoice cChoice : ℕ) :
    List ExerciseOut :=
  let needs := scores.filter fun p => decide (p.confidence < 0.75)
  let sorted := sortByConf needs
  let warmup : ExerciseOut :=
    { type := "warmup", title := "Let's Warm Up! 🌟",
      instruction := BREATHING_EXERCISES.getD wChoice "",
      phoneme := none, level := none, repetitions := none }
  let arti := (sorted.take 3).flatMap fun p =>
    match ARTICULATION_EXERCISES.lookup p.phoneme with
    | some exs => exs.map fun e =>
        { type := "articulation", phoneme := some p.phoneme, level := some e.1,
          title := "Practice the '" ++ p.phoneme ++ "' sound",
          instruction := e.2.1, repetitions := some e.2.2 }
    | none => []
  let coordination : ExerciseOut :=
    { type := "coordination", title := "Mouth Movement Practice! 💪",
      instruction := COORDINATION_EXERCISES.getD cChoice "",
      phoneme := none, level := none, repetitions := none }
  if needs.isEmpty then
    [{ type := "celebration", title := "You're Amazing! 🌟",
       instruction := "All your sounds are clear! Try a harder word next level!",
       phoneme := none, level := none, repetitions := none },
     { type := "challenge", title := "Ready for More? 🚀",
       instruction := "Try saying your word in a silly sentence!",
       phoneme := none, level := none, repetitions := none }]
  else (warmup :: arti) ++ [coordination]

/-! ## Definitions following the claims' words, for refinement comparison -/

/-- The dialect adjuster as claim C2 words it (boost a given confidence
by +0.15 capped at 0.95 on a recognized variant, leave it unchanged
otherwise), to be compared against the source's
`calculate_phoneme_confidence`. -/
def specDialectAdjust (e d : String) (c : ℚ) : ℚ :=
  if is_dialect_variation e d then min (c + 0.15) 0.95 else c

/-- The heuristic base draw as claim C6 words it (uniform on
[0.60, 0.85] for difficult sounds, [0.75, 0.95] otherwise), embedded by
the same inverse-CDF convention as `mockBaseDraw`, to be compared
against it. -/
def specUniformBase (ph : String) (u : ℚ) : ℚ :=
  if ph ∈ difficult_sounds then 0.60 + u * (0.85 - 0.60)
  else 0.75 + u * (0.95 - 0.75)

/-- The overall score as claim C7 words it: `round(mean(confidence)×100)`,
to be compared against the source's `overall_score_py`. -/
def specOverallScore (confidences : List ℚ) : ℤ :=
  round (listMean confidences * 100)

/-- The record `analyze_speech` stores after a first session on "sun"
(speech_analysis.py lines 142-154): word, overall score, and the two
abstract phoneme lists only. -/
def c4StoredRecord : ProgressData := ⟨0, "sun", 79, [], ["s"], some 1⟩

/-- The second session's phoneme scores of claim C4's scenario:
"s" at 0.82. -/
def c4SecondSession : List PhonemeScoreOut :=
  [⟨"s", "s", 0.82, "s"⟩, ⟨"uh", "uh", 0.90, "uh"⟩, ⟨"n", "n", 0.92, "n"⟩]

/-! ## Helper lemmas -/

lemma lookup_DIALECT_cases (e : String) (vs : List String)
    (hv : DIALECT_VARIATIONS.lookup e = some vs) :
    ((e = "TH" ∨ e = "DH") ∧ vs = ["D", "T"])
    ∨ (e = "R" ∧ vs = ["W", "AH0"]) ∨ (e = "NG" ∧ vs = ["N"]) := by
  by_cases h1 : e = "TH"
  · subst h1
    simp [DIALECT_VARIATIONS, List.lookup] at hv
    exact Or.inl ⟨Or.inl rfl, hv.symm⟩
  by_cases h2 : e = "DH"
  · subst h2
    simp [DIALECT_VARIATIONS, List.lookup] at hv
    exact Or.inl ⟨Or.inr rfl, hv.symm⟩
  by_cases h3 : e = "R"
  · subst h3
    simp [DIALECT_VARIATIONS, List.lookup] at hv
    exact Or.inr (Or.inl ⟨rfl, hv.symm⟩)
  by_cases h4 : e = "NG"
  · subst h4
    simp [DIALECT_VARIATIONS, List.lookup] at hv
    exact Or.inr (Or.inr ⟨rfl, hv.symm⟩)
  · have b1 : (e == "TH") = false := beq_eq_false_iff_ne.mpr h1
    have b2 : (e == "DH") = false := beq_eq_false_iff_ne.mpr h2
    have b3 : (e == "R") = false := beq_eq_false_iff_ne.mpr h3
    have b4 : (e == "NG") = false := beq_eq_false_iff_ne.mpr h4
    simp [DIALECT_VARIATIONS, List.lookup, b1, b2, b3, b4] at hv

lemma variant_ne (e d : String) (vs : List String)
    (hv : DIALECT_VARIATIONS.lookup e = some vs) (hd : d ∈ vs) : e ≠ d := by
  rcases lookup_DIALECT_cases e vs hv with ⟨he, hvs⟩ | ⟨he, hvs⟩ | ⟨he, hvs⟩
  · subst hvs
    rcases he with rfl | rfl <;>
      rcases (by simpa using hd : d = "D" ∨ d = "T") with rfl | rfl <;> decide
  · subst hvs he
    rcases (by simpa using hd : d = "W" ∨ d = "AH0") with rfl | rfl <;> decide
  · subst hvs he
    have : d = "N" := by simpa using hd
    subst this
    decide

lemma gopBase_of_variant (e d : String) (vs : List String)
    (hv : DIALECT_VARIATIONS.lookup e = some vs) (hne : e ≠ d) (hd : d ∈ vs) :
    gopBaseConfidence e d = 0.92 := by
  simp [gopBaseConfidence, hv, hne, hd]

lemma gopBase_of_nonvariant (e d : String) (vs : List String)
    (hv : DIALECT_VARIATIONS.lookup e = some vs) (hne : e ≠ d) (hd : d ∉ vs) :
    gopBaseConfidence e d = 0.65 := by
  simp [gopBaseConfidence, hv, hne, hd]

lemma round2_le_round2 {a b : ℚ} (h : a ≤ b) : round2 a ≤ round2 b := by
  unfold round2
  have h1 : round (a * 100) ≤ round (b * 100) := by
    rw [round_eq, round_eq]
    exact Int.floor_mono (by linarith)
  have h2 : ((round (a * 100) : ℤ) : ℚ) ≤ ((round (b * 100) : ℤ) : ℚ) := Int.cast_le.mpr h1
  exact (div_le_div_iff_of_pos_right (by norm_num)).mpr h2

lemma round2_isRound2 (q : ℚ) : IsRound2 (round2 q) := ⟨round (q * 100), rfl⟩

lemma clip_bounds (x lo hi : ℚ) (h : lo ≤ hi) : lo ≤ clip x lo hi ∧ clip x lo hi ≤ hi :=
  ⟨le_min (le_max_right _ _) h, min_le_right _ _⟩

lemma band_05_1 (x : ℚ) : 0.5 ≤ round2 (clip x 0.5 1.0) ∧ round2 (clip x 0.5 1.0) ≤ 1 := by
  have hc := clip_bounds x 0.5 1.0 (by norm_num)
  have l1 : round2 0.5 = 0.5 := by norm_num [round2, round_eq]
  have l2 : round2 1.0 = 1 := by norm_num [round2, round_eq]
  have m1 := round2_le_round2 hc.1
  have m2 := round2_le_round2 hc.2
  rw [l1] at m1
  rw [l2] at m2
  exact ⟨m1, m2⟩

lemma band_05_95 (x : ℚ) : 0.5 ≤ round2 (clip x 0.50 0.95) ∧ round2 (clip x 0.50 0.95) ≤ 0.95 := by
  have hc := clip_bounds x 0.50 0.95 (by norm_num)
  have l1 : round2 0.50 = 0.5 := by norm_num [round2, round_eq]
  have l2 : round2 0.95 = 0.95 := by norm_num [round2, round_eq]
  have m1 := round2_le_round2 hc.1
  have m2 := round2_le_round2 hc.2
  rw [l1] at m1
  rw [l2] at m2
  exact ⟨m1, m2⟩

lemma conf_calc_band (e d : String) (ac : Option ℚ) (v : ℚ) :
    0.5 ≤ calculate_phoneme_confidence e d ac v
    ∧ calculate_phoneme_confidence e d ac v ≤ 1
    ∧ IsRound2 (calculate_phoneme_confidence e d ac v) := by
  unfold calculate_phoneme_confidence
  exact ⟨(band_05_1 _).1, (band_05_1 _).2, round2_isRound2 _⟩

lemma conf_mock_band (ph : String) (u q : ℚ) (i n : ℕ) :
    0.5 ≤ mockConfidence ph u q i n ∧ mockConfidence ph u q i n ≤ 1
    ∧ IsRound2 (mockConfidence ph u q i n) := by
  unfold mockConfidence
  exact ⟨(band_05_95 _).1, le_trans (band_05_95 _).2 (by norm_num), round2_isRound2 _⟩

lemma mock_mem_band (word : String) (u : ℕ → ℚ) (q : ℚ) (s : PhonemeScoreOut)
    (hs : s ∈ enhanced_mock_scoring word u q) :
    0.5 ≤ s.confidence ∧ s.confidence ≤ 1 ∧ IsRound2 s.confidence := by
  simp only [enhanced_mock_scoring, List.mem_map] at hs
  obtain ⟨a, _, rfl⟩ := hs
  exact conf_mock_band _ _ _ _ _

lemma sphinx_mem_band (hyp : Option String) (segs : List SphinxSeg) (word : String)
    (v : ℕ → ℚ) (l : List PhonemeScoreOut)
    (hl : score_with_pocketsphinx hyp segs word v = some l) (s : PhonemeScoreOut)
    (hs : s ∈ l) :
    0.5 ≤ s.confidence ∧ s.confidence ≤ 1 ∧ IsRound2 s.confidence := by
  cases hyp with
  | none => simp [score_with_pocketsphinx] at hl
  | some h =>
    simp only [score_with_pocketsphinx, Option.some.injEq] at hl
    subst hl
    simp only [List.mem_map] at hs
    obtain ⟨a, _, rfl⟩ := hs
    cases hseg : segs.get? a.1 with
    | some seg =>
      simp only [hseg]
      exact conf_calc_band _ _ _ _
    | none =>
      simp only [hseg]
      refine ⟨by norm_num, by norm_num, 55, by norm_num⟩

lemma c10_go_flags (chTip chEnc : ℕ → ℕ) (i : ℕ) (scores : List PhonemeScoreOut) :
    (∀ f ∈ generate_feedback_go chTip chEnc i scores,
      f.needs_practice = !f.show_specific_guidance)
    ∧ List.Forall₂ (fun p f => f.needs_practice = decide (p.confidence < 0.75)
        ∧ f.show_specific_guidance = decide (0.75 ≤ p.confidence))
        scores (generate_feedback_go chTip chEnc i scores) := by
  induction scores generalizing i with
  | nil => simp [generate_feedback_go]
  | cons p rest ih =>
    have hnp : (safeFeedbackItem (mkFeedbackItem p (chTip i) (chEnc i))).needs_practice
        = decide (p.confidence < 0.75) := by
      simp [safeFeedbackItem, mkFeedbackItem]
    have hsg : (safeFeedbackItem (mkFeedbackItem p (chTip i) (chEnc i))).show_specific_guidance
        = decide (0.75 ≤ p.confidence) := by
      simp [safeFeedbackItem, mkFeedbackItem, should_give_corrective_feedback,
        HIGH_CONFIDENCE_THRESHOLD]
    have hcompl : decide (p.confidence < 0.75) = !decide (0.75 ≤ p.confidence) := by
      by_cases h : p.confidence < 0.75
      · simp [h, not_le.mpr h]
      · simp [h, not_lt.mp h]
    constructor
    · intro f hf
      rcases List.mem_cons.mp hf with rfl | hf
      · rw [hnp, hsg, hcompl]
      · exact (ih (i + 1)).1 f hf
    · exact List.Forall₂.cons ⟨hnp, hsg⟩ (ih (i + 1)).2

/-! ## Claim theorems -/

/-- C1: evaluation of `ensure_child_safety` at the feedback dict
`{"message": "wrong bad"}`.  One pass returns
`{"message": "wrong needs practice"}` — the banned word "wrong" survives
as a (case-insensitive) substring because the substitution for "bad" is
applied to the original string, overwriting the earlier replacement of
"wrong" — and a second pass changes the already-filtered result again,
so the filter is not idempotent. -/
theorem c1_safety_filter_not_scrubbing :
    ensure_child_safety [("message", FVal.str "wrong bad")]
      = [("message", FVal.str "wrong needs practice")]
    ∧ occursIn "wrong".data (lowerChars "wrong needs practice".data) = true
    ∧ ensure_child_safety [("message", FVal.str "wrong needs practice")]
      ≠ [("message", FVal.str "wrong needs practice")] := by
  refine ⟨?_, by decide, ?_⟩
  · simp [ensure_child_safety, ecsValue]
    decide
  · simp [ensure_child_safety, ecsValue]
    decide

/-- C2 counterexample: the scoring code has no "+0.15 capped at 0.95,
otherwise unchanged" adjustment of an input confidence.  For the
recognized dialect pair (TH, D) the code's confidence (no acoustic
score, zero jitter) is the fixed 0.92, not `0.60 + 0.15 = 0.75` as the
claim computes for input confidence 0.60; for the unrecognized pair
(TH, K) the code yields 0.65, not an unchanged input confidence of
0.80. -/
theorem c2_counterexample :
    is_dialect_variation "TH" "D" = true
    ∧ calculate_phoneme_confidence "TH" "D" none 0 = 0.92
    ∧ specDialectAdjust "TH" "D" 0.60 = 0.75
    ∧ (0.92 : ℚ) ≠ 0.75
    ∧ is_dialect_variation "TH" "K" = false
    ∧ calculate_phoneme_confidence "TH" "K" none 0 = 0.65
    ∧ specDialectAdjust "TH" "K" 0.80 = 0.80
    ∧ (0.65 : ℚ) ≠ 0.80 := by
  refine ⟨by decide, ?_, ?_, by norm_num, by decide, ?_, ?_, by norm_num⟩
  · norm_num [calculate_phoneme_confidence, gopBaseConfidence, DIALECT_VARIATIONS,
      List.lookup, round2, clip, round_eq,
      show ¬(("TH" : String) = "D") from by decide]
  · norm_num [specDialectAdjust, show is_dialect_variation "TH" "D" = true from by decide]
  · norm_num [calculate_phoneme_confidence, gopBaseConfidence, DIALECT_VARIATIONS,
      List.lookup, round2, clip, round_eq,
      show ¬(("TH" : String) = "K") from by decide,
      show ¬(("K" : String) = "D") from by decide,
      show ¬(("K" : String) = "T") from by decide]
  · norm_num [specDialectAdjust, show is_dialect_variation "TH" "K" = false from by decide]

/-- C2 (amended): the dialect handling of `calculate_phoneme_confidence`
takes no prior confidence to adjust; it assigns the fixed base
confidence 0.92 to any (expected, detected) pair where detected is a
recognized variant of expected in `DIALECT_VARIATIONS`, the fixed 0.65
to any other non-identical detected for the same expected, and the
former never scores below the latter. -/
theorem c2_dialect_fixed_base (e d dm : String) (vs : List String)
    (hv : DIALECT_VARIATIONS.lookup e = some vs) (hd : d ∈ vs)
    (hdm : dm ∉ vs) (hne : e ≠ dm) :
    gopBaseConfidence e d = 0.92 ∧ gopBaseConfidence e dm = 0.65
    ∧ gopBaseConfidence e dm < gopBaseConfidence e d := by
  have h1 := gopBase_of_variant e d vs hv (variant_ne e d vs hv hd) hd
  have h2 := gopBase_of_nonvariant e dm vs hv hne hdm
  refine ⟨h1, h2, ?_⟩
  rw [h1, h2]
  norm_num

/-- C2 witness: the amended statement at (TH, D) against mismatch K. -/
theorem c2_dialect_fixed_base_witness :
    gopBaseConfidence "TH" "D" = 0.92 ∧ gopBaseConfidence "TH" "K" = 0.65
    ∧ gopBaseConfidence "TH" "K" < gopBaseConfidence "TH" "D" :=
  c2_dialect_fixed_base "TH" "D" "K" ["D", "T"] (by decide) (by decide) (by decide) (by decide)

/-- C3 counterexample: with one prior record giving baseline 0.70 for
"s", a current confidence of exactly 0.75 — a delta of exactly 0.05,
which the claim classifies as improved — is NOT classified improved by
`calculate_progress` (line 87 compares with strict `>`). -/
theorem c3_counterexample :
    phonemeAvg [⟨[⟨"s", "s", 0.70, "s"⟩]⟩] = [("s", 0.70)]
    ∧ (calculate_progress [⟨"s", "s", 0.75, "s"⟩] [⟨[⟨"s", "s", 0.70, "s"⟩]⟩]).improved_phonemes = []
    ∧ (0.75 : ℚ) - 0.70 ≥ 0.05 := by
  refine ⟨?_, ?_, by norm_num⟩
  · norm_num [phonemeAvg, phonemeHistory, addToHistory]
  · norm_num [calculate_progress, phonemeAvg, phonemeHistory, addToHistory, List.lookup,
      List.filter]

/-- C3 (amended): with a non-empty history in which the phoneme has
historical average `b`, the phoneme is classified improved exactly when
its current confidence strictly exceeds `b + 0.05`; in particular, at
baseline 0.70 neither 0.75 nor 0.749 is improved, while 0.751 is. -/
theorem c3_improved_iff_strict (p : PhonemeScoreOut) (previous : List PrevRec) (b : ℚ)
    (hprev : previous ≠ []) (hb : (phonemeAvg previous).lookup p.phoneme = some b) :
    p.phoneme ∈ (calculate_progress [p] previous).improved_phonemes
      ↔ p.confidence > b + 0.05 := by
  obtain ⟨r, rest, rfl⟩ := List.exists_cons_of_ne_nil hprev
  simp only [calculate_progress, hb, List.filter, List.map]
  by_cases h : p.confidence > b + 0.05
  · simp [h]
  · simp [h]

/-- C3 witness: the amended statement at baseline 0.70 with current
confidence 0.76 (improved, since 0.76 > 0.75). -/
theorem c3_improved_iff_strict_witness :
    (([⟨[⟨"s", "s", 0.70, "s"⟩]⟩] : List PrevRec) ≠ [])
    ∧ (phonemeAvg [⟨[⟨"s", "s", 0.70, "s"⟩]⟩]).lookup "s" = some 0.70
    ∧ (("s" ∈ (calculate_progress [⟨"s", "s", 0.76, "s"⟩] [⟨[⟨"s", "s", 0.70, "s"⟩]⟩]).improved_phonemes)
        ↔ (0.76 : ℚ) > 0.70 + 0.05) :=
  ⟨by simp, by norm_num [phonemeAvg, phonemeHistory, addToHistory, List.lookup],
   c3_improved_iff_strict ⟨"s", "s", 0.76, "s"⟩ [⟨[⟨"s", "s", 0.70, "s"⟩]⟩] 0.70 (by simp)
     (by norm_num [phonemeAvg, phonemeHistory, addToHistory, List.lookup])⟩

/-- C4: on a second session, `get_previous_scores` hands the stored
`ProgressData` record to `calculate_progress`, whose history loop
performs `prev.get("phoneme_scores", [])` on it; `ProgressData` has no
such field and no `get` method, so the pipeline raises `AttributeError`
instead of computing `improved_phonemes = ["s"]`. -/
theorem c4_second_session_raises :
    get_previous_scores [("user1", [c4StoredRecord])] "user1" "sun" = [c4StoredRecord]
    ∧ calculate_progress_on_stored c4SecondSession [c4StoredRecord]
        = .error .attributeError := by
  constructor
  · simp [get_previous_scores, c4StoredRecord, List.lookup, List.filter]
  · rfl

/-- C5: every confidence emitted by the scoring layer — through either
the PocketSphinx path or the heuristic fallback, for every word, every
acoustic input and every random draw — lies in [0.50, 1.00] and is a
multiple of 1/100 (rounded to two decimal places). -/
theorem c5_confidence_band (avail : Bool) (hyp : Option String) (segs : List SphinxSeg)
    (word : String) (v u : ℕ → ℚ) (q : ℚ) (s : PhonemeScoreOut)
    (hs : s ∈ score_pronunciation avail hyp segs word v u q) :
    0.5 ≤ s.confidence ∧ s.confidence ≤ 1 ∧ IsRound2 s.confidence := by
  unfold score_pronunciation at hs
  cases hE : (if avail then score_with_pocketsphinx hyp segs word v else none) with
  | none =>
    rw [hE] at hs
    exact mock_mem_band word u q s hs
  | some l =>
    cases l with
    | nil =>
      rw [hE] at hs
      exact mock_mem_band word u q s hs
    | cons x xs =>
      rw [hE] at hs
      cases avail with
      | false => simp at hE
      | true =>
        simp only [if_pos] at hE
        exact sphinx_mem_band hyp segs word v (x :: xs) (by simpa using hE) s hs

/-- C5 witness: the first score of the PocketSphinx path for "hi" with
no segments (confidence 0.55) is in band. -/
theorem c5_confidence_band_witness :
    (0.5 : ℚ) ≤ 0.55 ∧ (0.55 : ℚ) ≤ 1 ∧ IsRound2 0.55 :=
  c5_confidence_band true (some "h") [] "hi" (fun _ => 0) (fun _ => 0) 1
    ⟨"h", "h", 0.55, "HH"⟩
    (by simp [score_pronunciation, score_with_pocketsphinx,
          show WORD_PHONEMES.lookup (pyLower "hi") = some ["HH", "AY1"] from by decide,
          List.enum, List.enumFrom,
          show cmuToSimple "HH" = "h" from by decide])

/-- C6 counterexample: the heuristic scorer's difficult-sound draw is
uniform on [0.60, 0.80], not on [0.60, 0.85] as claimed: at the top of
the range (draw parameter u = 1) the code produces 0.80 where the
claim's distribution produces 0.85. -/
theorem c6_counterexample :
    mockBaseDraw "R" 1 = 0.80 ∧ specUniformBase "R" 1 = 0.85 ∧ (0.80 : ℚ) ≠ 0.85 := by
  refine ⟨?_, ?_, by norm_num⟩ <;>
    norm_num [mockBaseDraw, specUniformBase,
      show ("R" : String) ∈ difficult_sounds from by decide]

/-- C6 (amended): for every phoneme and every draw parameter u in
[0, 1], the heuristic base confidence is the affine image
`0.60 + 0.20·u` (range [0.60, 0.80]) when the phoneme is in the
difficult set {R, TH, L, S}, and `0.75 + 0.17·u` (range [0.75, 0.92])
otherwise. -/
theorem c6_mock_base_ranges (ph : String) (u : ℚ) (h0 : 0 ≤ u) (h1 : u ≤ 1) :
    (ph ∈ difficult_sounds →
      mockBaseDraw ph u = 0.60 + u * 0.20
      ∧ 0.60 ≤ mockBaseDraw ph u ∧ mockBaseDraw ph u ≤ 0.80)
    ∧ (ph ∉ difficult_sounds →
      mockBaseDraw ph u = 0.75 + u * 0.17
      ∧ 0.75 ≤ mockBaseDraw ph u ∧ mockBaseDraw ph u ≤ 0.92) := by
  unfold mockBaseDraw
  constructor <;> intro h <;> simp only [h, if_pos, if_neg, not_false_eq_true] <;>
    refine ⟨by norm_num, by nlinarith, by nlinarith⟩

/-- C6 witness: the amended statement for "R" at draw parameter 1/2. -/
theorem c6_mock_base_ranges_witness :
    (("R" ∈ difficult_sounds →
        mockBaseDraw "R" (1/2) = 0.60 + (1/2) * 0.20
        ∧ 0.60 ≤ mockBaseDraw "R" (1/2) ∧ mockBaseDraw "R" (1/2) ≤ 0.80)
      ∧ ("R" ∉ difficult_sounds →
        mockBaseDraw "R" (1/2) = 0.75 + (1/2) * 0.17
        ∧ 0.75 ≤ mockBaseDraw "R" (1/2) ∧ mockBaseDraw "R" (1/2) ≤ 0.92)) :=
  c6_mock_base_ranges "R" (1/2) (by norm_num) (by norm_num)

/-- C7 counterexample: `analyze_speech` computes the overall score with
`int(...)` (truncation), not `round(...)`: for confidences
[0.62, 0.62, 0.64] the mean×100 is 188/3 ≈ 62.67, the code produces 62
while the claimed rounding produces 63. -/
theorem c7_counterexample :
    overall_score_py [0.62, 0.62, 0.64] = 62
    ∧ specOverallScore [0.62, 0.62, 0.64] = 63
    ∧ (62 : ℤ) ≠ 63 := by
  refine ⟨?_, ?_, by norm_num⟩
  · norm_num [overall_score_py, listMean, pyInt, Int.floor_eq_iff]
  · norm_num [specOverallScore, listMean, round_eq, Int.floor_eq_iff]

/-- C7 (amended): for every non-empty confidence list in the normalized
band [0.5, 1], the session's overall score is the integer truncation
`⌊mean(confidence)×100⌋`, an integer in 0–100. -/
theorem c7_overall_is_floor (confidences : List ℚ) (hne : confidences ≠ [])
    (hb : ∀ c ∈ confidences, 0.5 ≤ c ∧ c ≤ 1) :
    overall_score_py confidences = ⌊listMean confidences * 100⌋
    ∧ 0 ≤ overall_score_py confidences ∧ overall_score_py confidences ≤ 100 := by
  have hlen : 0 < (confidences.length : ℚ) := by
    have := List.length_pos.mpr hne
    exact_mod_cast this
  have hsum_le : confidences.sum ≤ (confidences.length : ℚ) * 1 := by
    have := List.sum_le_card_nsmul confidences 1 (fun x hx => (hb x hx).2)
    simpa [nsmul_eq_mul] using this
  have hsum_ge : (confidences.length : ℚ) * 0.5 ≤ confidences.sum := by
    have := List.card_nsmul_le_sum confidences 0.5 (fun x hx => (hb x hx).1)
    simpa [nsmul_eq_mul] using this
  have hmean_le : listMean confidences ≤ 1 := by
    rw [listMean, div_le_one hlen]
    linarith
  have hmean_ge : 0.5 ≤ listMean confidences := by
    rw [listMean, le_div_iff₀ hlen]
    linarith
  have hfloor : overall_score_py confidences = ⌊listMean confidences * 100⌋ := by
    rw [overall_score_py, pyInt, if_pos (by linarith)]
  refine ⟨hfloor, ?_, ?_⟩
  · rw [hfloor]
    have : (0 : ℚ) ≤ listMean confidences * 100 := by linarith
    exact_mod_cast Int.floor_nonneg.mpr this
  · rw [hfloor]
    have : listMean confidences * 100 ≤ 100 := by linarith
    calc ⌊listMean confidences * 100⌋ ≤ ⌊(100 : ℚ)⌋ := Int.floor_mono this
      _ = 100 := by norm_num

/-- C7 witness: the amended statement for the single confidence 0.8. -/
theorem c7_overall_is_floor_witness :
    overall_score_py [0.8] = ⌊listMean [0.8] * 100⌋
    ∧ 0 ≤ overall_score_py [0.8] ∧ overall_score_py [0.8] ≤ 100 :=
  c7_overall_is_floor [0.8] (by simp) (by norm_num)

/-- C8: for every target word missing from the lexicon, the scoring
pipeline totally computes a single-element result whose one phoneme is
the placeholder "unk" — the PocketSphinx path yields nothing for an
unknown word, and the heuristic fallback substitutes the ["UNK"]
sequence. -/
theorem c8_unknown_word_placeholder (avail : Bool) (hyp : Option String)
    (segs : List SphinxSeg) (word : String) (v u : ℕ → ℚ) (q : ℚ)
    (hw : WORD_PHONEMES.lookup (pyLower word) = none) :
    (score_pronunciation avail hyp segs word v u q).map (·.phoneme) = ["unk"]
    ∧ (score_pronunciation avail hyp segs word v u q).length = 1 := by
  have hmock : enhanced_mock_scoring word u q
      = [{ phoneme := cmuToSimple "UNK", expected := cmuToSimple "UNK",
           confidence := mockConfidence "UNK" (u 0) q 0 1, detected := "UNK" }] := by
    simp [enhanced_mock_scoring, hw, List.enum]
  have hspx : ∀ l, score_with_pocketsphinx hyp segs word v = some l → l = [] := by
    intro l hl
    cases hyp with
    | none => simp [score_with_pocketsphinx] at hl
    | some h =>
      simp only [score_with_pocketsphinx, Option.some.injEq] at hl
      rw [hw] at hl
      simpa using hl.symm
  have hres : score_pronunciation avail hyp segs word v u q
      = enhanced_mock_scoring word u q := by
    unfold score_pronunciation
    cases hE : (if avail then score_with_pocketsphinx hyp segs word v else none) with
    | none => rfl
    | some l =>
      cases avail with
      | false => simp at hE
      | true =>
        have : l = [] := hspx l (by simpa using hE)
        subst this
        rfl
  rw [hres, hmock]
  constructor
  · simp [show cmuToSimple "UNK" = "unk" from by decide]
  · rfl

/-- C8 witness: the unknown word "xyzzy". -/
theorem c8_unknown_word_placeholder_witness :
    (score_pronunciation false none [] "xyzzy" (fun _ => 0) (fun _ => 0) 1).map (·.phoneme)
      = ["unk"]
    ∧ (score_pronunciation false none [] "xyzzy" (fun _ => 0) (fun _ => 0) 1).length = 1 :=
  c8_unknown_word_placeholder false none [] "xyzzy" (fun _ => 0) (fun _ => 0) 1 (by decide)

/-- C9 counterexample: when no phoneme is below 0.75 the exercise
selector emits TWO drills (one "celebration", one "challenge"), not the
single drill the claim states: at the input [s: 0.9] the result has
length 2. -/
theorem c9_counterexample :
    (∀ p ∈ ([⟨"s", "s", 0.9, "s"⟩] : List PhonemeScoreOut), ¬(p.confidence < 0.75))
    ∧ (generate_exercises [⟨"s", "s", 0.9, "s"⟩] 0 0).length = 2
    ∧ (generate_exercises [⟨"s", "s", 0.9, "s"⟩] 0 0).length ≠ 1 := by
  have hdec : decide (((0.9 : ℚ)) < 0.75) = false := by
    rw [decide_eq_false_iff_not]
    norm_num
  refine ⟨by norm_num, ?_, ?_⟩ <;>
    simp [generate_exercises, List.filter, hdec]

/-- C9 (amended): the exercise selector never returns an empty list, and
when no phoneme has confidence below 0.75 it returns exactly two drills,
one celebration and one challenge. -/
theorem c9_nonempty_two_drills (scores : List PhonemeScoreOut) (w c : ℕ) :
    generate_exercises scores w c ≠ []
    ∧ ((∀ p ∈ scores, ¬(p.confidence < 0.75)) →
        (generate_exercises scores w c).map (·.type) = ["celebration", "challenge"]) := by
  by_cases hcase : (scores.filter fun p => decide (p.confidence < 0.75)) = []
  · constructor
    · simp [generate_exercises, hcase]
    · intro _
      simp [generate_exercises, hcase]
  · constructor
    · simp only [generate_exercises]
      rw [if_neg (by simpa [List.isEmpty_iff] using hcase)]
      simp
    · intro hall
      exact absurd (List.filter_eq_nil_iff.mpr (by simpa using hall)) hcase

/-- C9 witness: the amended statement at the all-clear input [s: 0.9]. -/
theorem c9_nonempty_two_drills_witness :
    generate_exercises [⟨"s", "s", 0.9, "s"⟩] 1 1 ≠ []
    ∧ (generate_exercises [⟨"s", "s", 0.9, "s"⟩] 1 1).map (·.type)
        = ["celebration", "challenge"] :=
  ⟨(c9_nonempty_two_drills [⟨"s", "s", 0.9, "s"⟩] 1 1).1,
   (c9_nonempty_two_drills [⟨"s", "s", 0.9, "s"⟩] 1 1).2 (by norm_num)⟩

/-- C10: in every item `generate_feedback` produces, `needs_practice`
equals `confidence < 0.75` and `show_specific_guidance` equals
`0.75 ≤ confidence` of the item's source phoneme score, so the two flags
are exact complements. -/
theorem c10_flags_complementary (scores : List PhonemeScoreOut) (chTip chEnc : ℕ → ℕ) :
    (∀ f ∈ generate_feedback scores chTip chEnc,
      f.needs_practice = !f.show_specific_guidance)
    ∧ List.Forall₂ (fun p f => f.needs_practice = decide (p.confidence < 0.75)
        ∧ f.show_specific_guidance = decide (0.75 ≤ p.confidence))
        scores (generate_feedback scores chTip chEnc) :=
  c10_go_flags chTip chEnc 0 scores
